import Mathlib

/-!
Shallow embedding of the Podcast-AI frontend core: the job lifecycle client
of the `Index` page (submission handler, polling effect) and the
`WaveformVisualizer` render loop, with the color lookup tables both use.
Wire numbers (`progress`, bar heights) are embedded as rationals; the
network is embedded as explicit response values consumed by the handlers.
-/

/-- The `JobStatus` interface of the Index page: the decoded body of a
status response `GET /api/podcast/{job_id}`. -/
structure JobStatus where
  job_id : String
  status : String
  progress : ℚ
  audio_url : Option String
  video_url : Option String
  error : Option String
deriving DecidableEq, Repr

/-- The body sent by `handleGeneratePodcast` to `POST /api/podcast`. -/
structure SubmitRequest where
  topic : String
  waveform_color : String
deriving DecidableEq, Repr

/-- Outcome of the submission fetch as the handler observes it: `ok jid`
is a 2xx response whose JSON body carries `job_id = jid`; `err` is a
transport error, a non-2xx response, or an unparsable body (all reach the
same `catch` block). -/
inductive SubmitResult where
  | ok : String → SubmitResult
  | err : SubmitResult
deriving DecidableEq, Repr

/-- What `handleGeneratePodcast` reports: `started jid` is the
`toast.success` path after `setJobId(data.job_id)`; `failed` is the
`toast.error` path of the `catch` block. -/
inductive SubmitOutcome where
  | started : String → SubmitOutcome
  | failed : SubmitOutcome
deriving DecidableEq, Repr

/-- The `useState` cells of the `Index` component. `progress` holds the
percentage passed to the `Progress` bar (`setProgress(data.progress * 100)`). -/
structure IndexState where
  topic : String
  additionalDetails : String
  waveformColor : String
  generatingPodcast : Bool
  podcastGenerated : Bool
  isPlaying : Bool
  jobId : Option String
  jobStatus : Option JobStatus
  progress : ℚ
  audioUrl : Option String
deriving DecidableEq, Repr

/-- The `colorMap` record of the Index page, as a lookup (a miss is
`undefined`, embedded as `none`). -/
def colorMap (c : String) : Option String :=
  if c = "blue" then some "#1E90FF"
  else if c = "purple" then some "#8A2BE2"
  else if c = "pink" then some "#FF69B4"
  else if c = "orange" then some "#FFA500"
  else if c = "green" then some "#00FF00"
  else if c = "red" then some "#FF0000"
  else none

/-- The `waveform_color` field of the submission body:
`colorMap[waveformColor] || "#00FF00"`. -/
def requestWaveformColor (c : String) : String :=
  (colorMap c).getD "#00FF00"

/-- The JS `topic.trim()` of the handler's guard: removes leading and
trailing whitespace. Embedded structurally over the character list so that
it evaluates inside the kernel. -/
def jsTrim (s : String) : String :=
  String.mk (((s.data.dropWhile Char.isWhitespace).reverse.dropWhile
      Char.isWhitespace).reverse)

/-- `handleGeneratePodcast`, given the outcome of the single fetch it
issues. Returns the resulting state, the list of requests issued, and the
reported outcome (`none` when the handler returned early on a blank topic
without fetching). The state writes before the `try` block
(`setGeneratingPodcast(true)` through `setProgress(0)`) persist on both
branches; the `catch` block additionally runs `setGeneratingPodcast(false)`. -/
def handleGeneratePodcast (st : IndexState) (resp : SubmitResult) :
    IndexState × List SubmitRequest × Option SubmitOutcome :=
  if jsTrim st.topic = "" then (st, [], none)
  else
    let req : SubmitRequest :=
      { topic := st.topic, waveform_color := requestWaveformColor st.waveformColor }
    let st1 : IndexState :=
      { st with generatingPodcast := true, podcastGenerated := false,
                jobId := none, jobStatus := none, progress := 0 }
    match resp with
    | SubmitResult.ok jid =>
        ({ st1 with jobId := some jid }, [req], some (SubmitOutcome.started jid))
    | SubmitResult.err =>
        ({ st1 with generatingPodcast := false }, [req], some SubmitOutcome.failed)

/-- The `disabled` expression of the Generate button:
`generatingPodcast || !topic.trim()`. -/
def submitDisabled (st : IndexState) : Bool :=
  st.generatingPodcast || jsTrim st.topic == ""

/-- The terminal-status test of `checkStatus`: the two branches
`data.status === "completed"` and `data.status === "failed"`; every other
string falls through to the re-poll branch. -/
def isTerminal (s : String) : Bool :=
  s == "completed" || s == "failed"

/-- The delay of `setTimeout(checkStatus, 2000)`, in milliseconds. -/
def pollIntervalMs : Nat := 2000

/-- The state writes `checkStatus` performs on a decoded 2xx status
response: `setJobStatus(data)` and `setProgress(data.progress * 100)`
unconditionally, then the completed / failed / re-poll branch. -/
def applyStatus (st : IndexState) (d : JobStatus) : IndexState :=
  let st1 : IndexState := { st with jobStatus := some d, progress := d.progress * 100 }
  if d.status = "completed" then
    { st1 with generatingPodcast := false, podcastGenerated := true,
               audioUrl := d.audio_url }
  else if d.status = "failed" then
    { st1 with generatingPodcast := false }
  else st1

/-- Outcome of one status fetch as `checkStatus` observes it: `ok d` is a
2xx response decoding to `d`; `err` is a transport error or a non-2xx
response (the `!response.ok` throw), both landing in the `catch` block. -/
inductive PollResponse where
  | ok : JobStatus → PollResponse
  | err : PollResponse
deriving DecidableEq, Repr

/-- Observable events of one polling chain: `query` is a
`GET /api/podcast/{job_id}` fetch; `update d` is the snapshot delivery
(`setJobStatus(data)`); `errToast` is the `toast.error` of the `catch`
block; `wait ms` is a `setTimeout` delay before the next `checkStatus`. -/
inductive ChainEvent where
  | query : ChainEvent
  | update : JobStatus → ChainEvent
  | errToast : ChainEvent
  | wait : Nat → ChainEvent
deriving DecidableEq, Repr

/-- The recursive `checkStatus` loop of the polling `useEffect`, run
against the list of responses the network returns to its successive
queries. Each call issues one query; on `err` it reports once and stops
(after `setGeneratingPodcast(false)`); on a terminal snapshot it stops
after delivering it; otherwise it schedules exactly one next call after
`pollIntervalMs`. An empty list is a query still in flight. -/
def checkStatusRun : IndexState → List PollResponse → IndexState × List ChainEvent
  | st, [] => (st, [ChainEvent.query])
  | st, PollResponse.err :: _ =>
      ({ st with generatingPodcast := false }, [ChainEvent.query, ChainEvent.errToast])
  | st, PollResponse.ok d :: rest =>
      let st1 := applyStatus st d
      if isTerminal d.status then (st1, [ChainEvent.query, ChainEvent.update d])
      else
        let r := checkStatusRun st1 rest
        (r.1, ChainEvent.query :: ChainEvent.update d ::
              ChainEvent.wait pollIntervalMs :: r.2)

/-- Number of status queries appearing in a chain trace. -/
def countQueries : List ChainEvent → Nat
  | [] => 0
  | ChainEvent.query :: es => countQueries es + 1
  | _ :: es => countQueries es

/-- Number of error reports appearing in a chain trace. -/
def countErrToasts : List ChainEvent → Nat
  | [] => 0
  | ChainEvent.errToast :: es => countErrToasts es + 1
  | _ :: es => countErrToasts es

/-- The teardown React runs on the polling effect when `jobId` changes or
the component unmounts. The effect body of the source returns no cleanup
function, so this teardown performs nothing: it clears no pending
`setTimeout` and sets no flag that `checkStatus` consults. -/
def pollEffectCleanup : IndexState → IndexState := id

/-- The chain when the consumer tears down (the watched `jobId` is
superseded or the component unmounts) immediately after the first response
is processed: `pollEffectCleanup` runs at that point, and because it clears
nothing, the `setTimeout` already scheduled by the non-terminal branch
still fires and the loop continues on the remaining responses exactly as
`checkStatusRun` does. -/
def checkStatusRunTeardownAfterFirst (st : IndexState) :
    PollResponse → List PollResponse → IndexState × List ChainEvent
  | PollResponse.err, _ =>
      (pollEffectCleanup { st with generatingPodcast := false },
       [ChainEvent.query, ChainEvent.errToast])
  | PollResponse.ok d, rest =>
      let st1 := pollEffectCleanup (applyStatus st d)
      if isTerminal d.status then (st1, [ChainEvent.query, ChainEvent.update d])
      else
        let r := checkStatusRun st1 rest
        (r.1, ChainEvent.query :: ChainEvent.update d ::
              ChainEvent.wait pollIntervalMs :: r.2)

/-- A concrete Index state: topic filled in, a submission accepted as job
`abc123`, polling about to start. -/
def sampleState : IndexState :=
  { topic := "Space Exploration", additionalDetails := "", waveformColor := "blue",
    generatingPodcast := true, podcastGenerated := false, isPlaying := false,
    jobId := some "abc123", jobStatus := none, progress := 0, audioUrl := none }

/-- A non-terminal status snapshot for job `abc123` at progress `p`. -/
def procSnap (p : ℚ) : JobStatus :=
  { job_id := "abc123", status := "processing", progress := p,
    audio_url := none, video_url := none, error := none }

/-- The `barCount` constant of `WaveformVisualizer`. -/
def barCount : Nat := 64

/-- `getColorClass` of `WaveformVisualizer`: its inner `colorMap` record
lookup with the `|| "bg-waveform-blue"` fallback. -/
def getColorClass (color : String) : String :=
  (if color = "blue" then some "bg-waveform-blue"
   else if color = "purple" then some "bg-waveform-purple"
   else if color = "pink" then some "bg-waveform-pink"
   else if color = "orange" then some "bg-waveform-orange"
   else if color = "green" then some "bg-waveform-green"
   else if color = "red" then some "bg-waveform-red"
   else none).getD "bg-waveform-blue"

/-- Visual state of `WaveformVisualizer`: the inline `style.height` of the
64 bars (as a percentage of the container), and whether a `setInterval`
tick is currently installed by the animation effect. -/
structure RendererState where
  barHeights : Fin barCount → ℚ
  intervalActive : Bool

/-- The interval period of `setInterval(updateBars, 100)`, in
milliseconds. -/
def tickIntervalMs : Nat := 100

/-- `updateBars` of the animation effect, acting on the bar heights. The
random draws of one tick (`Math.random()`, one per bar) enter as `rand`;
the source sets `bar.style.height` to `rand * 100` percent when `playing`
and to `20%` otherwise. -/
def updateBars (playing : Bool) (rand : Fin barCount → ℚ)
    (_bars : Fin barCount → ℚ) : Fin barCount → ℚ :=
  fun i => if playing then rand i * 100 else 20

/-- One firing of the installed interval. The interval exists only when
the animation effect ran with `playing = true`, and its callback closes
over that same `playing` value, so the callback always executes the
`playing` branch of `updateBars`; when no interval is installed nothing
fires. -/
def tick (rand : Fin barCount → ℚ) (st : RendererState) : RendererState :=
  if st.intervalActive then
    { st with barHeights := updateBars true rand st.barHeights }
  else st

/-- One run of the animation `useEffect` after the `playing` prop changes:
React first runs the previous effect instance's cleanup (`clearInterval`,
when one was installed), then the new body, which returns early when
`playing` is false and installs the interval when it is true. Bar heights
are not touched by either step. -/
def runEffect (playing : Bool) (st : RendererState) : RendererState :=
  let st0 : RendererState := { st with intervalActive := false }
  if playing then { st0 with intervalActive := true } else st0

/-! ### Theorems -/

/-- Every chain trace begins with the query that `checkStatus` issues
before it can observe anything. -/
theorem checkStatusRun_head (st : IndexState) (resps : List PollResponse) :
    (checkStatusRun st resps).2.head? = some ChainEvent.query := by
  cases resps with
  | nil => rfl
  | cons r rest =>
      cases r with
      | err => rfl
      | ok d =>
          simp only [checkStatusRun]
          split <;> rfl

/-- Claim C6: the client applies each snapshot's progress value as-is: the
displayed progress is exactly 100 times the snapshot's fractional
progress, for every prior state and every snapshot — hence no clamping to
[0, 100] and no monotonicity enforcement: a snapshot with lower progress
than its predecessor simply replaces the displayed value. -/
theorem progress_applied_as_is (st : IndexState) (d : JobStatus) :
    (applyStatus st d).progress = d.progress * 100 := by
  simp only [applyStatus]
  split
  · rfl
  · split <;> rfl

/-- Claim C4: a status-query failure is terminal for the polling loop:
whatever responses would have followed, the chain's trace is exactly one
query and one error report — the failure is reported exactly once, no
further query is issued, no retry happens — and the generating flag is
cleared. -/
theorem poll_error_terminal (st : IndexState) (rest : List PollResponse) :
    checkStatusRun st (PollResponse.err :: rest)
      = ({ st with generatingPodcast := false },
         [ChainEvent.query, ChainEvent.errToast]) ∧
    countQueries (checkStatusRun st (PollResponse.err :: rest)).2 = 1 ∧
    countErrToasts (checkStatusRun st (PollResponse.err :: rest)).2 = 1 := by
  exact ⟨rfl, rfl, rfl⟩

/-- Claim C3: on a delivered snapshot the loop stops when the status is
terminal ("completed" or "failed") — the trace is closed with no further
query regardless of any later responses — and otherwise schedules exactly
one further query after the fixed delay: a single `wait pollIntervalMs`
followed by the continuation, whose first event is that one query. The
delay is 2 time units of 1000 ms. -/
theorem poll_step_terminal_or_repoll (st : IndexState) (d : JobStatus)
    (rest : List PollResponse) :
    checkStatusRun st (PollResponse.ok d :: rest)
      = (if isTerminal d.status then
           (applyStatus st d, [ChainEvent.query, ChainEvent.update d])
         else
           ((checkStatusRun (applyStatus st d) rest).1,
            ChainEvent.query :: ChainEvent.update d ::
            ChainEvent.wait pollIntervalMs ::
            (checkStatusRun (applyStatus st d) rest).2)) ∧
    (checkStatusRun (applyStatus st d) rest).2.head? = some ChainEvent.query ∧
    pollIntervalMs = 2 * 1000 := by
  refine ⟨?_, checkStatusRun_head _ _, rfl⟩
  simp only [checkStatusRun]

/-- Claim C7: color resolution is a pure total function over the closed
preset set: each of the six recognized names maps to its fixed display
color in both lookup tables (the bar color class of `WaveformVisualizer`
and the hex sent in the submission body), and any name outside the set
falls back to the respective default instead of failing. -/
theorem color_resolution_total (c : String)
    (h : c ∉ ["blue", "purple", "pink", "orange", "green", "red"]) :
    getColorClass "blue" = "bg-waveform-blue" ∧
    getColorClass "purple" = "bg-waveform-purple" ∧
    getColorClass "pink" = "bg-waveform-pink" ∧
    getColorClass "orange" = "bg-waveform-orange" ∧
    getColorClass "green" = "bg-waveform-green" ∧
    getColorClass "red" = "bg-waveform-red" ∧
    requestWaveformColor "blue" = "#1E90FF" ∧
    requestWaveformColor "purple" = "#8A2BE2" ∧
    requestWaveformColor "pink" = "#FF69B4" ∧
    requestWaveformColor "orange" = "#FFA500" ∧
    requestWaveformColor "green" = "#00FF00" ∧
    requestWaveformColor "red" = "#FF0000" ∧
    getColorClass c = "bg-waveform-blue" ∧
    requestWaveformColor c = "#00FF00" := by
  simp only [List.mem_cons, List.not_mem_nil, or_false, not_or] at h
  obtain ⟨h1, h2, h3, h4, h5, h6⟩ := h
  refine ⟨rfl, rfl, rfl, rfl, rfl, rfl, rfl, rfl, rfl, rfl, rfl, rfl, ?_, ?_⟩ <;>
    simp [getColorClass, requestWaveformColor, colorMap, h1, h2, h3, h4, h5, h6]

/-- Witness for C7 at the unrecognized name "magenta". -/
theorem color_resolution_total_witness :
    "magenta" ∉ ["blue", "purple", "pink", "orange", "green", "red"] ∧
    (getColorClass "magenta" = "bg-waveform-blue" ∧
     requestWaveformColor "magenta" = "#00FF00") := by
  refine ⟨by decide, ?_, ?_⟩
  · exact (color_resolution_total "magenta" (by decide)).2.2.2.2.2.2.2.2.2.2.2.2.1
  · exact (color_resolution_total "magenta" (by decide)).2.2.2.2.2.2.2.2.2.2.2.2.2

/-- Claim C5: on a non-blank topic the handler issues exactly one
submission request (carrying the topic and the resolved waveform color)
and reports exactly one outcome: on a 2xx response the job id from the
body's `job_id` field, on any failure a submission error with no job id
set — never both, and with no retry (the request list is a singleton in
both cases). -/
theorem submit_once_exclusive (st : IndexState) (jid : String)
    (h : jsTrim st.topic ≠ "") :
    (handleGeneratePodcast st (SubmitResult.ok jid)).2.1
      = [{ topic := st.topic,
           waveform_color := requestWaveformColor st.waveformColor }] ∧
    (handleGeneratePodcast st SubmitResult.err).2.1
      = [{ topic := st.topic,
           waveform_color := requestWaveformColor st.waveformColor }] ∧
    (handleGeneratePodcast st (SubmitResult.ok jid)).2.2
      = some (SubmitOutcome.started jid) ∧
    (handleGeneratePodcast st (SubmitResult.ok jid)).1.jobId = some jid ∧
    (handleGeneratePodcast st SubmitResult.err).2.2
      = some SubmitOutcome.failed ∧
    (handleGeneratePodcast st SubmitResult.err).1.jobId = none ∧
    SubmitOutcome.started jid ≠ SubmitOutcome.failed := by
  simp [handleGeneratePodcast, h]

/-- Witness for C5 at `sampleState` and job id "abc123". -/
theorem submit_once_exclusive_witness :
    jsTrim sampleState.topic ≠ "" ∧
    ((handleGeneratePodcast sampleState (SubmitResult.ok "abc123")).2.1
       = [{ topic := sampleState.topic,
            waveform_color := requestWaveformColor sampleState.waveformColor }] ∧
     (handleGeneratePodcast sampleState SubmitResult.err).2.1
       = [{ topic := sampleState.topic,
            waveform_color := requestWaveformColor sampleState.waveformColor }] ∧
     (handleGeneratePodcast sampleState (SubmitResult.ok "abc123")).2.2
       = some (SubmitOutcome.started "abc123") ∧
     (handleGeneratePodcast sampleState (SubmitResult.ok "abc123")).1.jobId
       = some "abc123" ∧
     (handleGeneratePodcast sampleState SubmitResult.err).2.2
       = some SubmitOutcome.failed ∧
     (handleGeneratePodcast sampleState SubmitResult.err).1.jobId = none ∧
     SubmitOutcome.started "abc123" ≠ SubmitOutcome.failed) :=
  ⟨by decide, submit_once_exclusive sampleState "abc123" (by decide)⟩

/-- Claim C10: on a topic that trims to the empty string the handler
returns before any state write or fetch: the state is unchanged, no
request is issued, and no outcome is reported. -/
theorem blank_topic_noop (st : IndexState) (resp : SubmitResult)
    (h : jsTrim st.topic = "") :
    handleGeneratePodcast st resp = (st, [], none) := by
  simp [handleGeneratePodcast, h]

/-- Witness for C10 at a whitespace-only topic. -/
theorem blank_topic_noop_witness :
    jsTrim ({ sampleState with topic := "   " } : IndexState).topic = "" ∧
    handleGeneratePodcast { sampleState with topic := "   " } SubmitResult.err
      = ({ sampleState with topic := "   " }, [], none) :=
  ⟨by decide, blank_topic_noop _ _ (by decide)⟩

/-- A failed status snapshot for job `abc123`, as the service reports it. -/
def failedSnap : JobStatus :=
  { job_id := "abc123", status := "failed", progress := 1/2,
    audio_url := none, video_url := none, error := some "tts engine unavailable" }

/-- Claim C9: each of the three terminal failures — submission failure,
poll transport failure, failed status snapshot — clears the generating
flag, which (with the topic still non-blank) re-enables the Generate
button, and populates no result state from the failing run: the completed
flag is not set and the stored audio reference is untouched. -/
theorem terminal_failures_reset (st : IndexState) (d : JobStatus)
    (rest : List PollResponse) (htop : jsTrim st.topic ≠ "")
    (hfail : d.status = "failed") :
    ((handleGeneratePodcast st SubmitResult.err).1.generatingPodcast = false ∧
     (handleGeneratePodcast st SubmitResult.err).1.podcastGenerated = false ∧
     (handleGeneratePodcast st SubmitResult.err).1.audioUrl = st.audioUrl ∧
     submitDisabled (handleGeneratePodcast st SubmitResult.err).1 = false) ∧
    ((checkStatusRun st (PollResponse.err :: rest)).1.generatingPodcast = false ∧
     (checkStatusRun st (PollResponse.err :: rest)).1.podcastGenerated
        = st.podcastGenerated ∧
     (checkStatusRun st (PollResponse.err :: rest)).1.audioUrl = st.audioUrl ∧
     submitDisabled (checkStatusRun st (PollResponse.err :: rest)).1 = false) ∧
    ((applyStatus st d).generatingPodcast = false ∧
     (applyStatus st d).podcastGenerated = st.podcastGenerated ∧
     (applyStatus st d).audioUrl = st.audioUrl ∧
     submitDisabled (applyStatus st d) = false) := by
  have hbeq : (jsTrim st.topic == "") = false := beq_eq_false_iff_ne.mpr htop
  refine ⟨?_, ?_, ?_⟩ <;>
    simp [handleGeneratePodcast, checkStatusRun, applyStatus, submitDisabled,
          htop, hfail, hbeq]

/-- Witness for C9 at `sampleState`, `failedSnap` and an empty remainder. -/
theorem terminal_failures_reset_witness :
    jsTrim sampleState.topic ≠ "" ∧
    failedSnap.status = "failed" ∧
    (((handleGeneratePodcast sampleState SubmitResult.err).1.generatingPodcast
        = false ∧
      (handleGeneratePodcast sampleState SubmitResult.err).1.podcastGenerated
        = false ∧
      (handleGeneratePodcast sampleState SubmitResult.err).1.audioUrl
        = sampleState.audioUrl ∧
      submitDisabled (handleGeneratePodcast sampleState SubmitResult.err).1
        = false) ∧
     ((checkStatusRun sampleState [PollResponse.err]).1.generatingPodcast
        = false ∧
      (checkStatusRun sampleState [PollResponse.err]).1.podcastGenerated
        = sampleState.podcastGenerated ∧
      (checkStatusRun sampleState [PollResponse.err]).1.audioUrl
        = sampleState.audioUrl ∧
      submitDisabled (checkStatusRun sampleState [PollResponse.err]).1
        = false) ∧
     ((applyStatus sampleState failedSnap).generatingPodcast = false ∧
      (applyStatus sampleState failedSnap).podcastGenerated
        = sampleState.podcastGenerated ∧
      (applyStatus sampleState failedSnap).audioUrl = sampleState.audioUrl ∧
      submitDisabled (applyStatus sampleState failedSnap) = false)) :=
  ⟨by decide, rfl, terminal_failures_reset sampleState failedSnap [] (by decide) rfl⟩

/-- Bar index 0, for concrete evaluations of the renderer. -/
def bar0 : Fin barCount := ⟨0, by norm_num [barCount]⟩

/-- A per-bar random draw of one tick in which every bar draws 1/2. -/
def halfRand : Fin barCount → ℚ := fun _ => 1/2

/-- A renderer with every bar's inline height at 50% and the animation
interval installed (the situation after some ticks with `playing = true`). -/
def stuckBars : RendererState :=
  { barHeights := fun _ => 50, intervalActive := true }

/-- Claim C8: the renderer has 64 bars and a 100 ms tick period; running
the effect with `playing = true` installs the interval and with
`playing = false` leaves none installed; a tick on an installed interval
replaces each bar's height with its own draw times 100 (so a draw in
[0, 1] lands in [0, 100] percent, an amplitude fraction in [0, 1]); with
no interval installed a tick changes nothing. -/
theorem waveform_tick_behavior (st : RendererState) (rand : Fin barCount → ℚ)
    (i : Fin barCount) (h0 : 0 ≤ rand i) (h1 : rand i ≤ 1) :
    barCount = 64 ∧
    tickIntervalMs = 100 ∧
    (runEffect true st).intervalActive = true ∧
    (runEffect false st).intervalActive = false ∧
    (tick rand { st with intervalActive := true }).barHeights i = rand i * 100 ∧
    0 ≤ (tick rand { st with intervalActive := true }).barHeights i ∧
    (tick rand { st with intervalActive := true }).barHeights i ≤ 100 ∧
    tick rand { st with intervalActive := false }
      = { st with intervalActive := false } := by
  have e : (tick rand { st with intervalActive := true }).barHeights i
      = rand i * 100 := rfl
  refine ⟨rfl, rfl, rfl, rfl, e, ?_, ?_, rfl⟩
  · rw [e]
    exact mul_nonneg h0 (by norm_num)
  · rw [e]
    nlinarith

/-- Witness for C8 at `stuckBars`, the constant draw 1/2 and bar 0. -/
theorem waveform_tick_behavior_witness :
    0 ≤ halfRand bar0 ∧ halfRand bar0 ≤ 1 ∧
    (barCount = 64 ∧
     tickIntervalMs = 100 ∧
     (runEffect true stuckBars).intervalActive = true ∧
     (runEffect false stuckBars).intervalActive = false ∧
     (tick halfRand { stuckBars with intervalActive := true }).barHeights bar0
       = halfRand bar0 * 100 ∧
     0 ≤ (tick halfRand { stuckBars with intervalActive := true }).barHeights bar0 ∧
     (tick halfRand { stuckBars with intervalActive := true }).barHeights bar0
       ≤ 100 ∧
     tick halfRand { stuckBars with intervalActive := false }
       = { stuckBars with intervalActive := false }) :=
  ⟨by norm_num [halfRand], by norm_num [halfRand],
   waveform_tick_behavior stuckBars halfRand bar0 (by norm_num [halfRand])
     (by norm_num [halfRand])⟩

/-- Claim C1 fails on the code: with the chain at job `abc123` delivering
a first non-terminal snapshot, tearing the consumer down at that point
(the `jobId` superseded or the component unmounted — `pollEffectCleanup`,
which is all the cleanup the polling effect provides), the pending
`setTimeout` still fires: the trace holds three queries, not one, and the
post-teardown snapshot is still delivered to the observer. -/
theorem teardown_does_not_stop_chain :
    (checkStatusRunTeardownAfterFirst sampleState
        (PollResponse.ok (procSnap (2/5))) [PollResponse.ok (procSnap (1/2))]).2
      = [ChainEvent.query, ChainEvent.update (procSnap (2/5)),
         ChainEvent.wait pollIntervalMs, ChainEvent.query,
         ChainEvent.update (procSnap (1/2)), ChainEvent.wait pollIntervalMs,
         ChainEvent.query] ∧
    countQueries (checkStatusRunTeardownAfterFirst sampleState
        (PollResponse.ok (procSnap (2/5))) [PollResponse.ok (procSnap (1/2))]).2
      = 3 ∧
    ChainEvent.update (procSnap (1/2)) ∈
      (checkStatusRunTeardownAfterFirst sampleState
        (PollResponse.ok (procSnap (2/5))) [PollResponse.ok (procSnap (1/2))]).2 := by
  have h : (checkStatusRunTeardownAfterFirst sampleState
      (PollResponse.ok (procSnap (2/5))) [PollResponse.ok (procSnap (1/2))]).2
      = [ChainEvent.query, ChainEvent.update (procSnap (2/5)),
         ChainEvent.wait pollIntervalMs, ChainEvent.query,
         ChainEvent.update (procSnap (1/2)), ChainEvent.wait pollIntervalMs,
         ChainEvent.query] := rfl
  refine ⟨h, rfl, ?_⟩
  rw [h]
  simp

/-- Claim C2 fails on the code: on the `playing` transition true → false
the effect only clears the interval; with every bar stuck at inline height
50%, the heights stay 50% (not the idle 20%) and stay 50% after any
further tick, because the installed callback was the only writer and the
20% branch of `updateBars` (shown last) is unreachable — the interval
callback always runs with `playing = true` and the effect installs nothing
when `playing` is false. -/
theorem pause_does_not_reset_bars :
    (runEffect false stuckBars).intervalActive = false ∧
    (runEffect false stuckBars).barHeights bar0 = 50 ∧
    (tick halfRand (runEffect false stuckBars)).barHeights bar0 = 50 ∧
    (50 : ℚ) ≠ 20 ∧
    updateBars false halfRand stuckBars.barHeights bar0 = 20 := by
  exact ⟨rfl, rfl, rfl, by norm_num, rfl⟩
